import Mathlib

/-!
Verification of the news-dashboard backend core: the `NewsItem` entity
(status state machine, favorite/visibility toggles, ownership-based access
control), the news use cases (create with duplicate detection, user-news
listing with link deduplication) and the password-change use cases.

Machine timestamps are modelled as natural numbers; "the current time" is
passed explicitly to each mutator as a `now` argument. Fallible Python
methods (raising `ValueError` / domain exceptions) are modelled as
`Except`-returning functions carrying the exception message or a typed
domain error.
-/

/-- Modelled from the spec: `src/domain/entities/news_item.py` is not in the
excerpt. News category enum, members general, research, product, company,
tutorial, opinion; values persist as lowercase string names (spec sections 3
and 6). -/
inductive NewsCategory where
  | general
  | research
  | product
  | company
  | tutorial
  | opinion
deriving DecidableEq, Repr

/-- Modelled from the spec: reading-status enum of `news_item.py` (not in the
excerpt), members pending, reading, read; lowercase string wire form. -/
inductive NewsStatus where
  | pending
  | reading
  | read
deriving DecidableEq, Repr

/-- Parse the lowercase wire/storage form of a category; unknown strings are
not members of the enum. -/
def NewsCategory.fromString (s : String) : Option NewsCategory :=
  if s = "general" then some .general
  else if s = "research" then some .research
  else if s = "product" then some .product
  else if s = "company" then some .company
  else if s = "tutorial" then some .tutorial
  else if s = "opinion" then some .opinion
  else none

/-- Parse the lowercase wire/storage form of a status; unknown strings are
not members of the enum. -/
def NewsStatus.fromString (s : String) : Option NewsStatus :=
  if s = "pending" then some .pending
  else if s = "reading" then some .reading
  else if s = "read" then some .read
  else none

/-- Modelled from the spec: the `NewsItem` dataclass of
`src/domain/entities/news_item.py` (not in the excerpt); fields per spec
section 3 and the entity test suite. -/
structure NewsItem where
  id : Option String
  source : String
  title : String
  summary : String
  link : String
  image_url : String
  category : NewsCategory
  user_id : String
  is_public : Bool
  status : NewsStatus
  is_favorite : Bool
  created_at : Nat
  updated_at : Nat
deriving DecidableEq, Repr

/-- Python `str.strip()` over the character list: drop leading and trailing
whitespace. -/
def py_strip (s : String) : String :=
  ⟨((s.data.dropWhile Char.isWhitespace).reverse.dropWhile Char.isWhitespace).reverse⟩

/-- Modelled from the spec: validating construction of a `NewsItem`
(`__post_init__` of the missing `news_item.py`). source, title, summary,
link, user_id must be non-empty after trimming; category and status must be
recognized enum members, given here in their string wire form. Error
messages are those asserted by `tests/domain/test_news_entity.py`. -/
def NewsItem.create (id : Option String) (source title summary link image_url : String)
    (category : String) (user_id : String) (is_public : Bool) (status : String)
    (is_favorite : Bool) (created_at updated_at : Nat) : Except String NewsItem :=
  if py_strip source = "" then .error "News source cannot be empty"
  else if py_strip title = "" then .error "News title cannot be empty"
  else if py_strip summary = "" then .error "News summary cannot be empty"
  else if py_strip link = "" then .error "News link cannot be empty"
  else if py_strip user_id = "" then .error "User ID cannot be empty"
  else
    match NewsCategory.fromString category with
    | none => .error "Invalid news category"
    | some c =>
      match NewsStatus.fromString status with
      | none => .error "Invalid news status"
      | some s =>
        .ok { id := id, source := source, title := title, summary := summary,
              link := link, image_url := image_url, category := c,
              user_id := user_id, is_public := is_public, status := s,
              is_favorite := is_favorite, created_at := created_at,
              updated_at := updated_at }

/-- Modelled from the spec: constructing a `NewsItem` giving only source,
title, summary, link, category and user_id, every other field left at its
declared default. Defaults per the entity test suite
(`test_news_item_creation_with_valid_data_succeeds`): is_public true,
status pending, is_favorite false, image_url empty, id absent. -/
def NewsItem.create_with_defaults (source title summary link : String)
    (category : String) (user_id : String) (now : Nat) : Except String NewsItem :=
  NewsItem.create none source title summary link "" category user_id true "pending" false now now

/-- Modelled from the spec: `mark_as_reading()` is allowed from PENDING or
READING and fails with a ValueError if the current status is READ; on
success it sets status to READING and stamps updated_at. -/
def NewsItem.mark_as_reading (n : NewsItem) (now : Nat) : Except String NewsItem :=
  if n.status = .read then .error "Cannot mark a read item as reading"
  else .ok { n with status := .reading, updated_at := now }

/-- Modelled from the spec: `mark_as_read()` is allowed unconditionally from
any state; sets status to READ and stamps updated_at. -/
def NewsItem.mark_as_read (n : NewsItem) (now : Nat) : NewsItem :=
  { n with status := .read, updated_at := now }

/-- Modelled from the spec: `mark_as_pending()` is an unconditional reset to
PENDING from any state; stamps updated_at. -/
def NewsItem.mark_as_pending (n : NewsItem) (now : Nat) : NewsItem :=
  { n with status := .pending, updated_at := now }

/-- Modelled from the spec: `toggle_favorite()` flips the boolean with no
guard conditions and stamps updated_at. -/
def NewsItem.toggle_favorite (n : NewsItem) (now : Nat) : NewsItem :=
  { n with is_favorite := !n.is_favorite, updated_at := now }

/-- Modelled from the spec: `set_public(bool)` unconditionally overwrites the
visibility flag and stamps updated_at. -/
def NewsItem.set_public (n : NewsItem) (value : Bool) (now : Nat) : NewsItem :=
  { n with is_public := value, updated_at := now }

/-- Modelled from the spec: `update_category(new_category)` fails if the
argument is not a recognized enum member; otherwise overwrites and stamps
updated_at. The argument is given in its string wire form. -/
def NewsItem.update_category (n : NewsItem) (new_category : String) (now : Nat) :
    Except String NewsItem :=
  match NewsCategory.fromString new_category with
  | none => .error "Invalid news category"
  | some c => .ok { n with category := c, updated_at := now }

/-- Modelled from the spec: `update_status(new_status)` fails if the argument
is not a recognized enum member; otherwise unconditionally overwrites
(bypassing the reading-from-read restriction) and stamps updated_at. -/
def NewsItem.update_status (n : NewsItem) (new_status : String) (now : Nat) :
    Except String NewsItem :=
  match NewsStatus.fromString new_status with
  | none => .error "Invalid news status"
  | some s => .ok { n with status := s, updated_at := now }

/-- Modelled from the spec: `can_be_accessed_by(requesting_user_id)` returns
true if is_public is true, OR requesting_user_id equals the owner user_id;
false otherwise. -/
def NewsItem.can_be_accessed_by (n : NewsItem) (requesting_user_id : String) : Bool :=
  n.is_public || n.user_id == requesting_user_id

/-- Modelled from the spec: the typed domain failures of
`src/domain/exceptions/news_exceptions.py` (not in the excerpt):
not-found, duplicate (link, user_id), unauthorized access, validation. -/
inductive NewsError where
  | newsNotFound (news_id : String)
  | duplicateNews (link user_id : String)
  | unauthorizedAccess (user_id news_id : String)
  | validation (msg : String)
deriving DecidableEq, Repr

namespace create_news_use_case

/-- Modelled from the spec: the repository existence check by the
(link, user_id) composite key, over a store modelled as the list of
persisted items. -/
def exists_by_link_and_user (store : List NewsItem) (link user_id : String) : Bool :=
  store.any (fun n => n.link == link && n.user_id == user_id)

/-- Modelled from the spec: `CreateNewsUseCase.execute` of
`src/application/use_cases/news/create_news_use_case.py` (not in the
excerpt). Existence is checked by (link, user_id) before construction;
presence fails with the duplicate error and the persistence create path is
never reached; otherwise the entity is constructed (status pending,
is_favorite false) and persisted by appending to the store. Returns the
result together with the store after the call. -/
def execute (store : List NewsItem) (source title summary link image_url : String)
    (category : String) (user_id : String) (is_public : Bool) (now : Nat) :
    Except NewsError NewsItem × List NewsItem :=
  if exists_by_link_and_user store link user_id then
    (.error (.duplicateNews link user_id), store)
  else
    match NewsItem.create none source title summary link image_url category
        user_id is_public "pending" false now now with
    | .error m => (.error (.validation m), store)
    | .ok item => (.ok item, store ++ [item])

end create_news_use_case

namespace get_user_news_use_case

/-- Modelled from the spec: link deduplication pass of
`GetUserNewsUseCase.execute` (source not in the excerpt) — keep the first
item carrying each link, skipping later items whose link was already seen. -/
def dedup_go (seen : List String) : List NewsItem → List NewsItem
  | [] => []
  | x :: xs =>
    if x.link ∈ seen then dedup_go seen xs
    else x :: dedup_go (x.link :: seen) xs

/-- Modelled from the spec: `GetUserNewsUseCase.execute` of
`src/application/use_cases/news/get_user_news_use_case.py` (not in the
excerpt). It returns the caller's items unioned with the public items,
duplicates by link removed; the caller's own items come first, so a link
present in both keeps the caller's copy
(`test_execute_filters_duplicate_links`). -/
def execute (user_news public_news : List NewsItem) : List NewsItem :=
  dedup_go [] (user_news ++ public_news)

end get_user_news_use_case

/-- The `User` entity of `src/domain/entities/user.py`, restricted to the
fields the password-change use cases read or write. -/
structure User where
  id : String
  email : String
  username : String
  hashed_password : String
  is_active : Bool
  created_at : Nat
  updated_at : Nat
deriving DecidableEq, Repr

/-- Typed domain failures of `src/domain/exceptions/user.py` raised by the
password-change use cases. -/
inductive UserError where
  | userNotFound (user_id : String)
  | invalidCredentials (msg : String)
  | currentPasswordMismatch (msg : String)
  | passwordChange (msg : String)
deriving DecidableEq, Repr

/-- Repository lookup by id over a store modelled as the list of persisted
users (first match wins). -/
def find_user_by_id (store : List User) (user_id : String) : Option User :=
  store.find? (fun u => u.id == user_id)

/-- The repository's targeted password update: overwrite hashed_password of
the user with the given id, leaving every other document unchanged. -/
def update_password_store (store : List User) (user_id hashed : String) : List User :=
  store.map (fun u => if u.id == user_id then { u with hashed_password := hashed } else u)

namespace change_password_use_case

/-- `ChangePasswordUseCase.execute` of
`src/application/use_cases/user_use_cases/change_password_use_case.py`:
load the user by id (UserNotFoundError if absent), verify the current
password against the stored hash (InvalidCredentialsError on failure), hash
the new password and persist it via the targeted password update. The
collaborator primitives verify_password and get_password_hash are passed as
function parameters; the store is threaded explicitly, so the update call
happened exactly when the returned store differs in the intended way. -/
def execute (verify_password : String → String → Bool)
    (get_password_hash : String → String) (store : List User)
    (user_id current_password new_password : String) :
    Except UserError User × List User :=
  match find_user_by_id store user_id with
  | none => (.error (.userNotFound user_id), store)
  | some user =>
    if ¬ verify_password current_password user.hashed_password then
      (.error (.invalidCredentials "Current password is incorrect"), store)
    else
      let hashed := get_password_hash new_password
      (.ok { user with hashed_password := hashed },
       update_password_store store user_id hashed)

end change_password_use_case

namespace update_user_use_case

/-- `ChangePasswordUseCase.execute` of
`src/application/use_cases/user_use_cases/update_user_use_case.py`:
1. load the user by id (UserNotFoundError if absent); 2. verify the current
password (CurrentPasswordMismatchError on failure); 3. reject an empty or
shorter-than-6-after-trimming new password (PasswordChangeError);
4. hash the new password; 5. persist via the targeted password update and
return true. Collaborator primitives are function parameters; the store is
threaded explicitly. -/
def change_password_execute (verify_password : String → String → Bool)
    (get_password_hash : String → String) (store : List User)
    (user_id current_password new_password : String) :
    Except UserError Bool × List User :=
  match find_user_by_id store user_id with
  | none => (.error (.userNotFound user_id), store)
  | some user =>
    if ¬ verify_password current_password user.hashed_password then
      (.error (.currentPasswordMismatch "Current password is incorrect"), store)
    else if new_password = "" ∨ (py_strip new_password).length < 6 then
      (.error (.passwordChange "New password must be at least 6 characters long"), store)
    else
      (.ok true, update_password_store store user_id (get_password_hash new_password))

end update_user_use_case

/-! ### Sample values used by witness theorems -/

/-- The sample news item of the entity test suite fixture. -/
def sampleItem : NewsItem :=
  { id := some "507f1f77bcf86cd799439011", source := "TechCrunch",
    title := "AI Breakthrough", summary := "New AI technology announced",
    link := "https://example.com/news", image_url := "https://example.com/image.jpg",
    category := .research, user_id := "user123", is_public := true,
    status := .pending, is_favorite := false, created_at := 0, updated_at := 0 }

/-- The sample item moved to the READ state. -/
def sampleRead : NewsItem := { sampleItem with status := .read }

/-- A sample persisted user. -/
def sampleUser : User :=
  { id := "user123", email := "test@example.com", username := "testuser",
    hashed_password := "hashedpw", is_active := true, created_at := 0, updated_at := 0 }

/-! ### Claims -/

/-- C1: `mark_as_reading()` fails with the invalid-transition error when the
current status is READ; from PENDING or READING it always succeeds, leaving
status = READING and stamping updated_at. -/
theorem mark_as_reading_transition (n : NewsItem) (now : Nat) :
    (n.status = NewsStatus.read →
      n.mark_as_reading now = .error "Cannot mark a read item as reading") ∧
    (n.status = NewsStatus.pending ∨ n.status = NewsStatus.reading →
      n.mark_as_reading now =
        .ok { n with status := NewsStatus.reading, updated_at := now }) := by
  constructor
  · intro h
    simp [NewsItem.mark_as_reading, h]
  · intro h
    rcases h with h | h <;> simp [NewsItem.mark_as_reading, h]

/-- Witness for C1: evaluated on the READ sample item and the PENDING sample
item. -/
theorem mark_as_reading_transition_witness :
    sampleRead.mark_as_reading 5 = .error "Cannot mark a read item as reading" ∧
    sampleItem.mark_as_reading 5 =
      .ok { sampleItem with status := NewsStatus.reading, updated_at := 5 } :=
  ⟨(mark_as_reading_transition sampleRead 5).1 rfl,
   (mark_as_reading_transition sampleItem 5).2 (Or.inl rfl)⟩

/-- C2: `can_be_accessed_by(u)` returns true iff the item is public or `u`
equals the owner user_id; in particular it is always true for the owner. -/
theorem can_be_accessed_by_spec (n : NewsItem) (u : String) :
    (n.can_be_accessed_by u = true ↔ (n.is_public = true ∨ u = n.user_id)) ∧
    n.can_be_accessed_by n.user_id = true := by
  constructor
  · unfold NewsItem.can_be_accessed_by
    constructor
    · intro h
      simp only [Bool.or_eq_true, beq_iff_eq] at h
      rcases h with h | h
      · exact Or.inl h
      · exact Or.inr h.symm
    · intro h
      rcases h with h | h
      · simp [h]
      · simp [h]
  · simp [NewsItem.can_be_accessed_by]

/-- C3: `update_status(v)` fails with the validation error when `v` is not a
recognized status enum member; otherwise it unconditionally overwrites the
status with the parsed member and stamps updated_at — including setting
READING on an item whose current status is READ. -/
theorem update_status_spec (n : NewsItem) (v : String) (now : Nat) :
    (NewsStatus.fromString v = none →
      n.update_status v now = .error "Invalid news status") ∧
    (∀ s, NewsStatus.fromString v = some s →
      n.update_status v now = .ok { n with status := s, updated_at := now }) ∧
    (n.status = NewsStatus.read →
      n.update_status "reading" now =
        .ok { n with status := NewsStatus.reading, updated_at := now }) := by
  refine ⟨?_, ?_, ?_⟩
  · intro h
    simp [NewsItem.update_status, h]
  · intro s h
    simp [NewsItem.update_status, h]
  · intro _
    have h : NewsStatus.fromString "reading" = some NewsStatus.reading := rfl
    simp [NewsItem.update_status, h]

/-- Witness for C3: evaluated on the READ sample item with the unrecognized
string of the test suite and with "reading". -/
theorem update_status_spec_witness :
    sampleRead.update_status "invalid_status" 9 = .error "Invalid news status" ∧
    sampleRead.update_status "reading" 9 =
      .ok { sampleRead with status := NewsStatus.reading, updated_at := 9 } :=
  ⟨(update_status_spec sampleRead "invalid_status" 9).1 rfl,
   (update_status_spec sampleRead "reading" 9).2.2 rfl⟩

/-- C9: `toggle_favorite()` unconditionally flips is_favorite and is its own
inverse: two calls restore the original value. -/
theorem toggle_favorite_involutive (n : NewsItem) (t1 t2 : Nat) :
    (n.toggle_favorite t1).is_favorite = !n.is_favorite ∧
    ((n.toggle_favorite t1).toggle_favorite t2).is_favorite = n.is_favorite := by
  simp [NewsItem.toggle_favorite]

/-- Counterexample for C6: constructing a `NewsItem` with only source, title,
summary, link, category and user_id (the test suite's valid input) succeeds,
but the defaulted visibility flag is `is_public := true`, not false. -/
theorem news_item_default_is_public_cex :
    NewsItem.create_with_defaults "TechCrunch" "AI Breakthrough"
        "New AI technology announced" "https://example.com/news" "research" "user123" 0 =
      .ok { id := none, source := "TechCrunch", title := "AI Breakthrough",
            summary := "New AI technology announced", link := "https://example.com/news",
            image_url := "", category := .research, user_id := "user123",
            is_public := true, status := .pending, is_favorite := false,
            created_at := 0, updated_at := 0 } ∧ true ≠ false := by
  constructor
  · rfl
  · simp

/-- C6 (amended): for all valid inputs with the category a recognized enum
member and every required field non-empty after trimming, constructing a
`NewsItem` with only these fields succeeds, and the defaults are
is_public = true, status = PENDING, is_favorite = false. -/
theorem news_item_defaults (source title summary link category user_id : String)
    (now : Nat) (c : NewsCategory)
    (hs : py_strip source ≠ "") (ht : py_strip title ≠ "") (hm : py_strip summary ≠ "")
    (hl : py_strip link ≠ "") (hu : py_strip user_id ≠ "")
    (hc : NewsCategory.fromString category = some c) :
    NewsItem.create_with_defaults source title summary link category user_id now =
      .ok { id := none, source := source, title := title, summary := summary,
            link := link, image_url := "", category := c, user_id := user_id,
            is_public := true, status := .pending, is_favorite := false,
            created_at := now, updated_at := now } := by
  have hp : NewsStatus.fromString "pending" = some NewsStatus.pending := rfl
  simp [NewsItem.create_with_defaults, NewsItem.create, hs, ht, hm, hl, hu, hc, hp]

/-- Witness for C6 (amended): evaluated on the test suite's valid input. -/
theorem news_item_defaults_witness :
    NewsItem.create_with_defaults "TechCrunch" "AI Breakthrough"
        "New AI technology announced" "https://example.com/news" "research" "user123" 0 =
      .ok { id := none, source := "TechCrunch", title := "AI Breakthrough",
            summary := "New AI technology announced", link := "https://example.com/news",
            image_url := "", category := .research, user_id := "user123",
            is_public := true, status := .pending, is_favorite := false,
            created_at := 0, updated_at := 0 } :=
  news_item_defaults "TechCrunch" "AI Breakthrough" "New AI technology announced"
    "https://example.com/news" "research" "user123" 0 NewsCategory.research
    (by decide) (by decide) (by decide) (by decide) (by decide) rfl

/-- The entity fields C8 asserts are untouched by every business method:
id, source, title, summary, link, user_id and created_at. -/
def core_fields_eq (a b : NewsItem) : Prop :=
  a.id = b.id ∧ a.source = b.source ∧ a.title = b.title ∧ a.summary = b.summary ∧
  a.link = b.link ∧ a.user_id = b.user_id ∧ a.created_at = b.created_at

/-- C8: every business method (mark_as_reading, mark_as_read, mark_as_pending,
toggle_favorite, set_public, update_category, update_status) stamps
updated_at with the supplied current time and leaves id, source, title,
summary, link, user_id and created_at unchanged (for the fallible methods,
on their success result). -/
theorem business_methods_frame (n : NewsItem) (now : Nat) (b : Bool) (c v : String) :
    (∀ m, n.mark_as_reading now = .ok m → core_fields_eq n m ∧ m.updated_at = now) ∧
    (core_fields_eq n (n.mark_as_read now) ∧ (n.mark_as_read now).updated_at = now) ∧
    (core_fields_eq n (n.mark_as_pending now) ∧ (n.mark_as_pending now).updated_at = now) ∧
    (core_fields_eq n (n.toggle_favorite now) ∧ (n.toggle_favorite now).updated_at = now) ∧
    (core_fields_eq n (n.set_public b now) ∧ (n.set_public b now).updated_at = now) ∧
    (∀ m, n.update_category c now = .ok m → core_fields_eq n m ∧ m.updated_at = now) ∧
    (∀ m, n.update_status v now = .ok m → core_fields_eq n m ∧ m.updated_at = now) := by
  refine ⟨?_, ?_, ?_, ?_, ?_, ?_, ?_⟩
  · intro m h
    unfold NewsItem.mark_as_reading at h
    by_cases hs : n.status = NewsStatus.read
    · rw [if_pos hs] at h
      exact absurd h (by simp)
    · rw [if_neg hs] at h
      obtain rfl := (Except.ok.injEq _ _).mp h.symm
      exact ⟨⟨rfl, rfl, rfl, rfl, rfl, rfl, rfl⟩, rfl⟩
  · exact ⟨⟨rfl, rfl, rfl, rfl, rfl, rfl, rfl⟩, rfl⟩
  · exact ⟨⟨rfl, rfl, rfl, rfl, rfl, rfl, rfl⟩, rfl⟩
  · exact ⟨⟨rfl, rfl, rfl, rfl, rfl, rfl, rfl⟩, rfl⟩
  · exact ⟨⟨rfl, rfl, rfl, rfl, rfl, rfl, rfl⟩, rfl⟩
  · intro m h
    unfold NewsItem.update_category at h
    cases hc : NewsCategory.fromString c <;> rw [hc] at h
    · exact absurd h (by simp)
    · obtain rfl := (Except.ok.injEq _ _).mp h.symm
      exact ⟨⟨rfl, rfl, rfl, rfl, rfl, rfl, rfl⟩, rfl⟩
  · intro m h
    unfold NewsItem.update_status at h
    cases hv : NewsStatus.fromString v <;> rw [hv] at h
    · exact absurd h (by simp)
    · obtain rfl := (Except.ok.injEq _ _).mp h.symm
      exact ⟨⟨rfl, rfl, rfl, rfl, rfl, rfl, rfl⟩, rfl⟩

/-- Witness for C8: the mark_as_reading clause evaluated on the PENDING
sample item, the concrete success hypothesis discharged by computation. -/
theorem business_methods_frame_witness :
    core_fields_eq sampleItem { sampleItem with status := NewsStatus.reading, updated_at := 7 } ∧
    ({ sampleItem with status := NewsStatus.reading, updated_at := 7 } : NewsItem).updated_at = 7 :=
  (business_methods_frame sampleItem 7 false "product" "read").1
    { sampleItem with status := NewsStatus.reading, updated_at := 7 } rfl

/-- C4: when the repository existence check by (link, user_id) reports a
duplicate, `CreateNewsUseCase.execute` returns the duplicate error and the
store is unchanged — the persistence create path is never invoked. -/
theorem create_news_duplicate (store : List NewsItem)
    (source title summary link image_url category user_id : String)
    (is_public : Bool) (now : Nat)
    (h : create_news_use_case.exists_by_link_and_user store link user_id = true) :
    create_news_use_case.execute store source title summary link image_url category
        user_id is_public now =
      (.error (.duplicateNews link user_id), store) := by
  simp [create_news_use_case.execute, h]

/-- Witness for C4: a store already holding the sample item, creation
attempted with the same link and user. -/
theorem create_news_duplicate_witness :
    create_news_use_case.execute [sampleItem] "TechCrunch" "AI Breakthrough"
        "New AI technology announced" "https://example.com/news" "" "research"
        "user123" true 3 =
      (.error (.duplicateNews "https://example.com/news" "user123"), [sampleItem]) :=
  create_news_duplicate [sampleItem] "TechCrunch" "AI Breakthrough"
    "New AI technology announced" "https://example.com/news" "" "research"
    "user123" true 3 rfl

/-- C5: when the current password does not verify against the stored hash,
both `ChangePasswordUseCase.execute` implementations
(`change_password_use_case.py` and `update_user_use_case.py`) raise their
invalid-credentials / mismatch error and leave the store untouched — the
password-update repository call is never invoked. -/
theorem change_password_wrong_current (verify : String → String → Bool)
    (hashf : String → String) (store : List User)
    (user_id current_password new_password : String) (u : User)
    (hfind : find_user_by_id store user_id = some u)
    (hverify : verify current_password u.hashed_password = false) :
    change_password_use_case.execute verify hashf store user_id current_password new_password
      = (.error (.invalidCredentials "Current password is incorrect"), store) ∧
    update_user_use_case.change_password_execute verify hashf store user_id
        current_password new_password
      = (.error (.currentPasswordMismatch "Current password is incorrect"), store) := by
  constructor
  · simp [change_password_use_case.execute, hfind, hverify]
  · simp [update_user_use_case.change_password_execute, hfind, hverify]

/-- Witness for C5: a verifier that rejects everything, on a store holding
the sample user. -/
theorem change_password_wrong_current_witness :
    change_password_use_case.execute (fun _ _ => false) (fun s => s) [sampleUser]
        "user123" "wrongpass" "newpassword456"
      = (.error (.invalidCredentials "Current password is incorrect"), [sampleUser]) ∧
    update_user_use_case.change_password_execute (fun _ _ => false) (fun s => s)
        [sampleUser] "user123" "wrongpass" "newpassword456"
      = (.error (.currentPasswordMismatch "Current password is incorrect"), [sampleUser]) :=
  change_password_wrong_current (fun _ _ => false) (fun s => s)
    [sampleUser] "user123" "wrongpass" "newpassword456" sampleUser rfl rfl

/-- C7: when the new password is shorter than 6 characters after trimming,
`ChangePasswordUseCase.execute` of `update_user_use_case.py` fails with an
error and the store is untouched — the password-update repository call is
never invoked. -/
theorem change_password_short_new (verify : String → String → Bool)
    (hashf : String → String) (store : List User)
    (user_id current_password new_password : String)
    (h : (py_strip new_password).length < 6) :
    ∃ e : UserError,
      update_user_use_case.change_password_execute verify hashf store user_id
          current_password new_password
        = (.error e, store) := by
  unfold update_user_use_case.change_password_execute
  cases hfind : find_user_by_id store user_id with
  | none => exact ⟨.userNotFound user_id, rfl⟩
  | some u =>
    by_cases hv : verify current_password u.hashed_password
    · refine ⟨.passwordChange "New password must be at least 6 characters long", ?_⟩
      have hcond : new_password = "" ∨ (py_strip new_password).length < 6 := Or.inr h
      simp [hv, hcond]
    · exact ⟨.currentPasswordMismatch "Current password is incorrect", by simp [hv]⟩

/-- Witness for C7: a verifier that accepts everything, the too-short
password of the test suite. -/
theorem change_password_short_new_witness :
    ∃ e : UserError,
      update_user_use_case.change_password_execute (fun _ _ => true) (fun s => s)
          [sampleUser] "user123" "currentpass123" "123"
        = (.error e, [sampleUser]) :=
  change_password_short_new (fun _ _ => true) (fun s => s) [sampleUser]
    "user123" "currentpass123" "123" (by decide)

namespace get_user_news_use_case

/-- The links already consumed once the dedup pass has walked `l` starting
from `seen`. -/
def seen_after (seen : List String) : List NewsItem → List String
  | [] => seen
  | x :: xs => if x.link ∈ seen then seen_after seen xs else seen_after (x.link :: seen) xs

lemma dedup_go_not_seen :
    ∀ (l : List NewsItem) (seen : List String), ∀ y ∈ dedup_go seen l, y.link ∉ seen := by
  intro l
  induction l with
  | nil =>
    intro seen y hy
    simp [dedup_go] at hy
  | cons x xs ih =>
    intro seen y hy
    simp only [dedup_go] at hy
    by_cases hx : x.link ∈ seen
    · rw [if_pos hx] at hy
      exact ih seen y hy
    · rw [if_neg hx] at hy
      rcases List.mem_cons.mp hy with rfl | hy
      · exact hx
      · intro hm
        exact ih (x.link :: seen) y hy (List.mem_cons_of_mem _ hm)

lemma dedup_go_subset :
    ∀ (l : List NewsItem) (seen : List String), ∀ y ∈ dedup_go seen l, y ∈ l := by
  intro l
  induction l with
  | nil =>
    intro seen y hy
    simp [dedup_go] at hy
  | cons x xs ih =>
    intro seen y hy
    simp only [dedup_go] at hy
    by_cases hx : x.link ∈ seen
    · rw [if_pos hx] at hy
      exact List.mem_cons_of_mem _ (ih seen y hy)
    · rw [if_neg hx] at hy
      rcases List.mem_cons.mp hy with rfl | hy
      · exact List.mem_cons_self _ _
      · exact List.mem_cons_of_mem _ (ih _ y hy)

lemma dedup_go_append :
    ∀ (a : List NewsItem) (seen : List String) (b : List NewsItem),
      dedup_go seen (a ++ b) = dedup_go seen a ++ dedup_go (seen_after seen a) b := by
  intro a
  induction a with
  | nil =>
    intro seen b
    simp [dedup_go, seen_after]
  | cons x xs ih =>
    intro seen b
    by_cases hx : x.link ∈ seen
    · simp only [List.cons_append, dedup_go, seen_after, if_pos hx]
      exact ih seen b
    · simp only [List.cons_append, dedup_go, seen_after, if_neg hx, List.append_eq]
      rw [ih (x.link :: seen) b]

lemma mem_seen_after_of_mem :
    ∀ (l : List NewsItem) (seen : List String) (L : String),
      L ∈ seen → L ∈ seen_after seen l := by
  intro l
  induction l with
  | nil =>
    intro seen L h
    simpa [seen_after] using h
  | cons x xs ih =>
    intro seen L h
    simp only [seen_after]
    by_cases hx : x.link ∈ seen
    · rw [if_pos hx]
      exact ih seen L h
    · rw [if_neg hx]
      exact ih _ L (List.mem_cons_of_mem _ h)

lemma mem_seen_after_of_link :
    ∀ (l : List NewsItem) (seen : List String) (L : String),
      (∃ x ∈ l, x.link = L) → L ∈ seen_after seen l := by
  intro l
  induction l with
  | nil =>
    rintro seen L ⟨z, hz, _⟩
    simp at hz
  | cons x xs ih =>
    rintro seen L ⟨z, hz, hzL⟩
    simp only [seen_after]
    by_cases hx : x.link ∈ seen
    · rw [if_pos hx]
      rcases List.mem_cons.mp hz with rfl | hz
      · exact mem_seen_after_of_mem xs seen L (hzL ▸ hx)
      · exact ih seen L ⟨z, hz, hzL⟩
    · rw [if_neg hx]
      rcases List.mem_cons.mp hz with rfl | hz
      · refine mem_seen_after_of_mem xs _ L ?_
        rw [← hzL]
        exact List.mem_cons_self _ _
      · exact ih _ L ⟨z, hz, hzL⟩

lemma countP_dedup_go_eq_one (L : String) :
    ∀ (l : List NewsItem) (seen : List String), L ∉ seen → (∃ x ∈ l, x.link = L) →
      (dedup_go seen l).countP (fun y => y.link == L) = 1 := by
  intro l
  induction l with
  | nil =>
    rintro seen hL ⟨z, hz, _⟩
    simp at hz
  | cons x xs ih =>
    rintro seen hL ⟨z, hz, hzL⟩
    simp only [dedup_go]
    by_cases hmem : x.link ∈ seen
    · rw [if_pos hmem]
      rcases List.mem_cons.mp hz with rfl | hz
      · exact absurd (hzL ▸ hmem) hL
      · exact ih seen hL ⟨z, hz, hzL⟩
    · rw [if_neg hmem]
      by_cases hxL : x.link = L
      · subst hxL
        have hzero : (dedup_go (x.link :: seen) xs).countP (fun y => y.link == x.link) = 0 := by
          apply List.countP_eq_zero.mpr
          intro y hy
          have hns := dedup_go_not_seen xs (x.link :: seen) y hy
          simp only [beq_iff_eq]
          intro hEq
          apply hns
          rw [hEq]
          exact List.mem_cons_self _ _
        simp [List.countP_cons, hzero]
      · rcases List.mem_cons.mp hz with rfl | hz
        · exact absurd hzL hxL
        · have hL' : L ∉ x.link :: seen := by
            intro hc
            rcases List.mem_cons.mp hc with hc | hc
            · exact hxL hc.symm
            · exact hL hc
          simp [List.countP_cons, ih (x.link :: seen) hL' ⟨z, hz, hzL⟩, hxL]

end get_user_news_use_case

/-- C10: when the caller's own items and the public items both contain an
entry with the same link, `GetUserNewsUseCase.execute` returns exactly one
item with that link, and every returned item with that link is one of the
caller's own items — user-owned items take precedence during link
deduplication. -/
theorem get_user_news_link_dedup (user_news public_news : List NewsItem) (L : String)
    (hu : ∃ x ∈ user_news, x.link = L) (_hp : ∃ x ∈ public_news, x.link = L) :
    ((get_user_news_use_case.execute user_news public_news).countP
        (fun y => y.link == L) = 1) ∧
    (∀ y ∈ get_user_news_use_case.execute user_news public_news,
        y.link = L → y ∈ user_news) := by
  constructor
  · simp only [get_user_news_use_case.execute]
    apply get_user_news_use_case.countP_dedup_go_eq_one
    · simp
    · rcases hu with ⟨z, hz, hzL⟩
      exact ⟨z, List.mem_append_left _ hz, hzL⟩
  · intro y hy hyL
    simp only [get_user_news_use_case.execute,
      get_user_news_use_case.dedup_go_append] at hy
    rcases List.mem_append.mp hy with hy | hy
    · exact get_user_news_use_case.dedup_go_subset _ _ y hy
    · exfalso
      have h1 := get_user_news_use_case.dedup_go_not_seen _ _ y hy
      have h2 : L ∈ get_user_news_use_case.seen_after [] user_news :=
        get_user_news_use_case.mem_seen_after_of_link _ _ _ hu
      exact h1 (hyL ▸ h2)

/-- A public copy of the first sample list item, owned by another user. -/
def samplePublicCopy : NewsItem :=
  { sampleItem with id := some "2", user_id := "other_user", is_public := true }

/-- Witness for C10: the caller's sample item and a public item with the
same link; exactly the caller's copy survives. -/
theorem get_user_news_link_dedup_witness :
    ((get_user_news_use_case.execute [sampleItem] [samplePublicCopy]).countP
        (fun y => y.link == "https://example.com/news") = 1) ∧
    (∀ y ∈ get_user_news_use_case.execute [sampleItem] [samplePublicCopy],
        y.link = "https://example.com/news" → y ∈ [sampleItem]) :=
  get_user_news_link_dedup [sampleItem] [samplePublicCopy] "https://example.com/news"
    ⟨sampleItem, List.mem_cons_self _ _, rfl⟩
    ⟨samplePublicCopy, List.mem_cons_self _ _, rfl⟩
